import Mathlib

/-!
Shallow embedding of `src/components/SandboxIDE.tsx`, a browser-based live
playground: an editor buffer, a debounced transpile-and-evaluate pipeline, a
preview area with an error boundary and device-size presets, and an in-memory
save/load history.  Pure functions of the source become Lean functions; React
component state becomes explicit state records with step functions; the two
external libraries (Babel's transform and the JavaScript engine running the
wrapped script) are abstracted as `Except`-valued parameters, since their code
is not part of this repository.
-/

/-- Model of a JavaScript value as far as the sandbox pipeline inspects one:
the pipeline only ever asks whether a value is a valid React element
(`React.isValidElement`), whether it is truthy (the `||` on line 36), and
calls zero-argument closures.  `element tag text` stands for a concrete React
element node; `closureConst body` stands for a zero-argument arrow function
`() => body` returning a fixed value; `fn id` stands for any other function
value; `obj id` for any other object. -/
inductive JsValue where
  | undefined
  | jsNull
  | bool (b : Bool)
  | num (n : Int)
  | str (s : String)
  | obj (id : Nat)
  | element (tag : String) (text : String)
  | closureConst (body : JsValue)
  | fn (id : Nat)
deriving DecidableEq, Repr

/-- JavaScript truthiness: `undefined`, `null`, `false`, `0` and the empty
string are falsy; every object, element and function is truthy. -/
def truthy : JsValue → Bool
  | .undefined => false
  | .jsNull => false
  | .bool b => b
  | .num n => n != 0
  | .str s => !s.isEmpty
  | .obj _ => true
  | .element _ _ => true
  | .closureConst _ => true
  | .fn _ => true

/-- `React.isValidElement(result)` (line 42): true exactly on element nodes. -/
def isValidElement : JsValue → Bool
  | .element _ _ => true
  | _ => false

/-- Whether a value may be called as a function. -/
def isCallable : JsValue → Bool
  | .closureConst _ => true
  | .fn _ => true
  | _ => false

/-- Calling a value with zero arguments.  A constant closure returns its body
(on every call: the function is pure, so repeated calls agree).  Calling
anything else is not modelled: `none` covers both an unknown function body and
the `TypeError` raised when a non-function is called. -/
def jsCall0 : JsValue → Option JsValue
  | .closureConst body => some body
  | _ => none

/-- An exception object, reduced to the `message` the UI displays. -/
structure JsError where
  message : String
deriving DecidableEq, Repr

/-- Embedding of line 42, `React.isValidElement(result) ? () => result : result`:
a valid element is wrapped in a zero-argument producer returning that same
element; any other result is returned unmodified, with no callability check. -/
def classify (result : JsValue) : JsValue :=
  if isValidElement result then .closureConst result else result

/-- Embedding of the catch branch of `evaluateCode` (lines 43-50): a producer
rendering a fixed error box labeled `Evaluation Error:` with the exception's
message. -/
def errorProducerView (e : JsError) : JsValue :=
  .closureConst (.element "div" ("Evaluation Error:" ++ e.message))

/-- Embedding of `evaluateCode` (lines 30-51).  `transpile` abstracts
`transpileCode` (Babel's transform, an external library, line 31); note that in
the source the call to `transpileCode` sits OUTSIDE the `try` block, so an
exception it throws propagates to the caller.  `runWrapped` abstracts building
`new Function(...)` from the wrapped code and invoking it (lines 40-41), both
inside the `try`; a `runWrapped` failure is caught and replaced by the
error-rendering producer, while a successful result is classified (line 42). -/
def evaluateCode (transpile : String → Except JsError String)
    (runWrapped : String → Except JsError JsValue) (code : String) :
    Except JsError JsValue :=
  match transpile code with
  | .error e => .error e
  | .ok transpiledCode =>
    match runWrapped transpiledCode with
    | .error e => .ok (errorProducerView e)
    | .ok result => .ok (classify result)

/-- Embedding of line 36 of the wrapper script,
`return module.exports.default || module.exports`: JavaScript `||` yields its
left operand when that operand is truthy and its right operand otherwise, so
the evaluation result is the default slot when truthy and the exports container
itself when the slot is unset (`undefined`) or holds a falsy value. -/
def moduleResult (exportsObj defaultSlot : JsValue) : JsValue :=
  if truthy defaultSlot then defaultSlot else exportsObj

/-- The `React` namespace object injected into the sandbox scope. -/
def ReactValue : JsValue := .obj 1

/-- The `ReactDOM` namespace object injected into the sandbox scope. -/
def ReactDOMValue : JsValue := .obj 2

/-- Embedding of line 34 of the wrapper script,
`const require = (moduleName) => moduleName === 'react' ? React : ReactDOM`. -/
def requireShim (moduleName : String) : JsValue :=
  if moduleName = "react" then ReactValue else ReactDOMValue

/-- Own enumerable export names of the external `react` library, as evidenced
by this repository's own use of it: the named imports on line 1 of
`SandboxIDE.tsx` plus the two React APIs the file calls through the namespace
(`createElement` via the JSX pragma, `isValidElement` on line 42) and the
library's `version` field.  The exact list does not matter below except that it
is what the spread `...React` contributes and that it is non-empty. -/
def reactExportNames : List String :=
  ["useState", "useEffect", "useCallback", "Suspense", "memo", "useRef",
   "createElement", "isValidElement", "version"]

/-- Key list of a JavaScript object literal spreading `base` then `extra`:
insertion order, a duplicate key keeping its first position. -/
def spreadKeys (base extra : List String) : List String :=
  base ++ extra.filter (fun k => !(base.contains k))

/-- Embedding of `createSandboxEnvironment` (lines 23-27) at the level of the
parameter names handed to `new Function` (line 40): the object literal lists
`React`, then `ReactDOM`, then the spread `...React`, so it contributes the
two explicit keys and then every own export name of the React namespace. -/
def createSandboxEnvironmentKeys : List String :=
  spreadKeys ["React", "ReactDOM"] reactExportNames

/-- A saved component: the `onSave` handler (line 196) appends a name/code
pair to the history. -/
structure HistoryEntry where
  name : String
  code : String
deriving DecidableEq, Repr

/-- The mutable state of the `Sandbox` component together with the
`CodeEditor`'s name input: editor buffer `code` (line 170), current producer
`component` (line 171), saved `history` (line 172) and the component-name
input `componentName` (line 132). -/
structure SandboxState where
  code : String
  component : JsValue
  history : List HistoryEntry
  componentName : String
deriving DecidableEq, Repr

/-- Code points removed by JavaScript `String.prototype.trim`: the WhiteSpace
and LineTerminator productions (tab, LF, VT, FF, CR, space, NBSP, the Unicode
space separators, LS, PS, NNBSP, MMSP, ideographic space, and the BOM). -/
def jsWhitespaceCodes : List Nat :=
  [9, 10, 11, 12, 13, 32, 160, 0x1680, 0x2000, 0x2001, 0x2002, 0x2003, 0x2004,
   0x2005, 0x2006, 0x2007, 0x2008, 0x2009, 0x200a, 0x2028, 0x2029, 0x202f,
   0x205f, 0x3000, 0xfeff]

/-- Whether a character is JavaScript whitespace for `trim`. -/
def isJsWhitespace (c : Char) : Bool := jsWhitespaceCodes.contains c.toNat

/-- JavaScript `String.prototype.trim`: drop leading and trailing whitespace. -/
def jsTrim (s : String) : String :=
  ⟨((s.data.dropWhile isJsWhitespace).reverse.dropWhile isJsWhitespace).reverse⟩

/-- Embedding of `CodeEditor.handleSave` (lines 134-141) combined with the
`onSave` handler (line 196): when the trimmed component name is truthy
(non-empty), one name/code entry with the UNtrimmed name is appended to the
history and the name input is cleared; otherwise an alert is shown and no
state changes. -/
def handleSave (st : SandboxState) : SandboxState :=
  if truthy (.str (jsTrim st.componentName)) then
    { st with
      history := st.history ++ [⟨st.componentName, st.code⟩],
      componentName := "" }
  else
    st

/-- Recursion underlying `prev.filter((_, i) => i !== index)` (line 189):
`counter` is the running element index the filter callback receives; an
element is kept exactly when its index differs from `index`. -/
def deleteAtAux (index : Int) : Int → List HistoryEntry → List HistoryEntry
  | _, [] => []
  | counter, e :: rest =>
    if counter = index then deleteAtAux index (counter + 1) rest
    else e :: deleteAtAux index (counter + 1) rest

/-- Embedding of the `onDelete` handler (line 189),
`setHistory(prev => prev.filter((_, i) => i !== index))`.  The index is an
`Int` so that out-of-range and negative arguments are expressible. -/
def onDeleteHistory (hist : List HistoryEntry) (index : Int) : List HistoryEntry :=
  deleteAtAux index 0 hist

/-- Embedding of one firing of the debounced callback (lines 174-181): it
evaluates the current buffer and stores the outcome via `setComponent`.  When
`evaluateCode` itself throws (its `transpile` step is outside the `try`), the
exception escapes the callback before `setComponent` runs, so the state is
left untouched. -/
def runDebouncedEvaluation (transpile : String → Except JsError String)
    (runWrapped : String → Except JsError JsValue) (st : SandboxState) :
    SandboxState :=
  match evaluateCode transpile runWrapped st.code with
  | .ok c => { st with component := c }
  | .error _ => st

/-- The compiled-in debounce delay (line 6), in milliseconds. -/
def DEBOUNCE_DELAY : Nat := 500

/-- Trailing-edge debounce (lodash `debounce(f, delay)` with default options)
over a time-stamped call sequence, with `pending` the latest recorded call:
when the next call arrives `delay` or more after the pending one, the timer
has fired in between and the pending arguments were invoked; a closer call
re-arms the timer and supersedes the pending arguments; after the final call
the timer fires once.  Each produced pair is (invocation time, argument). -/
def debounceRun (delay : Nat) : Nat × String → List (Nat × String) → List (Nat × String)
  | pending, [] => [(pending.1 + delay, pending.2)]
  | pending, next :: rest =>
    if pending.1 + delay ≤ next.1 then
      (pending.1 + delay, pending.2) :: debounceRun delay next rest
    else
      debounceRun delay next rest

/-- The invocations a debounced function performs for a call sequence. -/
def debouncedInvocations (delay : Nat) : List (Nat × String) → List (Nat × String)
  | [] => []
  | c :: rest => debounceRun delay c rest

/-- The buffer values the debounced callback hands to the transform/evaluate
pipeline (lines 174-185): the arguments of the debounced invocations. -/
def pipelineInputs (delay : Nat) (calls : List (Nat × String)) : List String :=
  (debouncedInvocations delay calls).map Prod.snd

/-- Events observable by the `ErrorBoundary` component (lines 54-76): a
`window` error event carrying a message, or a re-render with a new producer
as its children. -/
inductive BoundaryEvent where
  | windowError (message : String)
  | producerChange (producer : JsValue)
deriving DecidableEq, Repr

/-- Whether an event is a mere producer change (no error captured). -/
def isProducerChange : BoundaryEvent → Bool
  | .windowError _ => false
  | .producerChange _ => true

/-- State transition of `ErrorBoundary`: the page-scoped listener (lines
57-64) stores the error of every `window` error event via `setError`; nothing
else ever writes the error state, so a re-render leaves it unchanged. -/
def boundaryStep (state : Option String) (e : BoundaryEvent) : Option String :=
  match e with
  | .windowError m => some m
  | .producerChange _ => state

/-- What the boundary's subtree shows. -/
inductive BoundaryView where
  | runtimeError (message : String)
  | content (producer : JsValue)
deriving DecidableEq, Repr

/-- Render of `ErrorBoundary` (lines 66-75): with a stored error, a fixed
error box labeled `Runtime Error:` replaces all children; otherwise the
children are rendered. -/
def boundaryRender (state : Option String) (producer : JsValue) : BoundaryView :=
  match state with
  | some m => .runtimeError m
  | none => .content producer

/-- The fixed device-preset catalog (lines 7-11): name, width, height. -/
def MOBILE_SIZES : List (String × Nat × Nat) :=
  [("iPhone SE", 375, 667), ("iPhone XR", 414, 896), ("iPad", 768, 1024)]

/-- Embedding of the select handler (line 117),
`setMobileSize(MOBILE_SIZES[e.target.value] || null)`: the chosen option's
value is a preset name (or the empty string for the Desktop option, line 118);
a name found in the catalog yields its size object (truthy), anything else
yields `undefined` and hence `null`. -/
def selectMobileSize (value : String) : Option (Nat × Nat) :=
  (MOBILE_SIZES.find? (fun e => e.1 == value)).map Prod.snd

/-- Inline style of the output area, restricted to its sizing. -/
structure PreviewStyle where
  width : Option Nat
  height : Nat
deriving DecidableEq, Repr

/-- Embedding of the output area's style (line 124): the base style fixes a
400px height and no width; spreading `mobileSize` over it sets a preset's
fixed width and overrides the height, while a `null` preset spreads nothing. -/
def outputStyle : Option (Nat × Nat) → PreviewStyle
  | none => ⟨none, 400⟩
  | some (w, h) => ⟨some w, h⟩

/-- Stand-in for Babel's transform on malformed input such as `<div`: the
transform throws a syntax error whatever the input. -/
def transpileThrowing : String → Except JsError String :=
  fun _ => .error ⟨"unexpected token"⟩

/-- Stand-in for a wrapped execution that would succeed with `undefined`. -/
def runWrappedNoop : String → Except JsError JsValue :=
  fun _ => .ok .undefined

/-- C1, counterexample: when the transform step throws, `evaluateCode` does
NOT return the labeled "Evaluation Error" producer — the call to
`transpileCode` on line 31 sits outside the `try` block, so the exception
propagates to the caller instead of being caught. -/
theorem c1_transform_failure_counterexample :
    evaluateCode transpileThrowing runWrappedNoop "<div" =
      Except.error ⟨"unexpected token"⟩ ∧
    evaluateCode transpileThrowing runWrappedNoop "<div" ≠
      Except.ok (errorProducerView ⟨"unexpected token"⟩) := by
  exact ⟨rfl, by simp [evaluateCode, transpileThrowing]⟩

/-- C1 (amended): a failure thrown by the transform step escapes the
debounced callback uncaught, so the producer is NOT replaced and the whole
state — editor buffer, producer and history — is unchanged; only a failure
thrown while building or running the wrapped function is caught and replaces
the producer by the "Evaluation Error" producer, again leaving the editor
buffer and the history unchanged. -/
theorem c1_amended_transform_failure
    (transpile : String → Except JsError String)
    (runWrapped : String → Except JsError JsValue)
    (st : SandboxState) (e : JsError) :
    (transpile st.code = .error e →
      runDebouncedEvaluation transpile runWrapped st = st) ∧
    (∀ t, transpile st.code = .ok t → runWrapped t = .error e →
      runDebouncedEvaluation transpile runWrapped st =
        { st with component := errorProducerView e }) := by
  constructor
  · intro h
    simp [runDebouncedEvaluation, evaluateCode, h]
  · intro t ht hr
    simp [runDebouncedEvaluation, evaluateCode, ht, hr]

/-- Witness for the amended C1: a throwing transform leaves a concrete state
untouched, and a throwing execution replaces only the producer. -/
theorem c1_amended_transform_failure_witness :
    runDebouncedEvaluation transpileThrowing runWrappedNoop
        ⟨"<div", .undefined, [], ""⟩ = ⟨"<div", .undefined, [], ""⟩ ∧
    runDebouncedEvaluation (fun _ => .ok "var x = 1") (fun _ => .error ⟨"boom"⟩)
        ⟨"x", .undefined, [], ""⟩ =
      ⟨"x", errorProducerView ⟨"boom"⟩, [], ""⟩ :=
  ⟨(c1_amended_transform_failure transpileThrowing runWrappedNoop
      ⟨"<div", .undefined, [], ""⟩ ⟨"unexpected token"⟩).1 rfl,
   (c1_amended_transform_failure (fun _ => .ok "var x = 1")
      (fun _ => .error ⟨"boom"⟩) ⟨"x", .undefined, [], ""⟩ ⟨"boom"⟩).2
     "var x = 1" rfl rfl⟩

/-- C2, counterexample: a script that stores the falsy value `false` in the
default slot does not get that value back as the evaluation result — the `||`
on line 36 falls back to the exports container for every falsy slot, not only
an unset one — and the sandbox scope of line 40 receives eleven injected
names, not exactly two, because line 26 spreads the whole React namespace. -/
theorem c2_evaluation_result_counterexample :
    moduleResult (JsValue.obj 0) (JsValue.bool false) ≠ JsValue.bool false ∧
    createSandboxEnvironmentKeys.length ≠ 2 := by
  decide

/-- C2 (amended): the evaluation result is the default-slot value when that
value is truthy and the exports container itself when the slot is unset or
holds a falsy value; the require shim maps the module name "react" to the
framework library and every other module name to the DOM-mounting
counterpart; and the injected scope holds the names React and ReactDOM
followed by every own export name of the framework library. -/
theorem c2_amended_evaluation_result :
    (∀ exportsObj defaultSlot : JsValue, truthy defaultSlot = true →
      moduleResult exportsObj defaultSlot = defaultSlot) ∧
    (∀ exportsObj defaultSlot : JsValue, truthy defaultSlot = false →
      moduleResult exportsObj defaultSlot = exportsObj) ∧
    requireShim "react" = ReactValue ∧
    (∀ moduleName, moduleName ≠ "react" →
      requireShim moduleName = ReactDOMValue) ∧
    createSandboxEnvironmentKeys = ["React", "ReactDOM"] ++ reactExportNames := by
  refine ⟨?_, ?_, rfl, ?_, by decide⟩
  · intro exportsObj defaultSlot h
    simp [moduleResult, h]
  · intro exportsObj defaultSlot h
    simp [moduleResult, h]
  · intro moduleName h
    simp [requireShim, h]

/-- Witness for the amended C2 at concrete values: a truthy default slot is
returned, an unset slot falls back to the container, and a non-react module
name resolves to the DOM library. -/
theorem c2_amended_evaluation_result_witness :
    moduleResult (JsValue.obj 0) (JsValue.num 5) = JsValue.num 5 ∧
    moduleResult (JsValue.obj 0) JsValue.undefined = JsValue.obj 0 ∧
    requireShim "react-dom/client" = ReactDOMValue :=
  ⟨c2_amended_evaluation_result.1 (JsValue.obj 0) (JsValue.num 5) (by decide),
   c2_amended_evaluation_result.2.1 (JsValue.obj 0) JsValue.undefined (by decide),
   c2_amended_evaluation_result.2.2.2.1 "react-dom/client" (by decide)⟩

/-- C3: a valid renderable element is wrapped into a zero-argument producer
whose every call returns that same element unchanged; any other result — in
particular a non-callable one — is returned unmodified, with no callability
check performed. -/
theorem c3_classifier (result : JsValue) :
    (isValidElement result = true →
      classify result = .closureConst result ∧
      jsCall0 (classify result) = some result) ∧
    (isValidElement result = false → classify result = result) := by
  constructor
  · intro h
    simp [classify, h, jsCall0]
  · intro h
    simp [classify, h]

/-- Witness for C3: an element is wrapped and the wrapper returns it; the
non-callable number 3 passes through unmodified. -/
theorem c3_classifier_witness :
    classify (JsValue.element "div" "hi") =
      .closureConst (.element "div" "hi") ∧
    jsCall0 (classify (JsValue.element "div" "hi")) =
      some (.element "div" "hi") ∧
    classify (JsValue.num 3) = JsValue.num 3 ∧
    isCallable (JsValue.num 3) = false :=
  ⟨((c3_classifier (JsValue.element "div" "hi")).1 (by decide)).1,
   ((c3_classifier (JsValue.element "div" "hi")).1 (by decide)).2,
   (c3_classifier (JsValue.num 3)).2 (by decide),
   by decide⟩

/-- Helper for the debounce analysis: while every next call lands strictly
inside the pending call's delay window, `debounceRun` never fires for the
pending arguments, and in the end fires exactly once, with the last call's
argument, one delay after that last call. -/
theorem debounceRun_coalesce (delay : Nat) (rest : List (Nat × String)) :
    ∀ (pending last : Nat × String),
      (pending :: rest).getLast? = some last →
      List.Chain' (fun a b => a.1 ≤ b.1 ∧ b.1 < a.1 + delay) (pending :: rest) →
      debounceRun delay pending rest = [(last.1 + delay, last.2)] := by
  induction rest with
  | nil =>
    intro pending last hlast _
    simp only [List.getLast?_singleton, Option.some.injEq] at hlast
    subst hlast
    rfl
  | cons next t ih =>
    intro pending last hlast hchain
    rw [List.chain'_cons] at hchain
    obtain ⟨hrel, hchain'⟩ := hchain
    rw [List.getLast?_cons_cons] at hlast
    have hres := ih next last hlast hchain'
    simp only [debounceRun]
    rw [if_neg (by omega)]
    exact hres

/-- C4: for a non-empty burst of edits in which every successive edit arrives
strictly less than `DEBOUNCE_DELAY` after the previous one, the debounced
callback fires exactly once — `DEBOUNCE_DELAY` after the final edit, with the
final buffer value — so only that final value is ever handed to the
transform/evaluate pipeline and no intermediate buffer value is processed. -/
theorem c4_debounce_coalesces (calls : List (Nat × String))
    (last : Nat × String) (hlast : calls.getLast? = some last)
    (hburst : List.Chain'
      (fun a b => a.1 ≤ b.1 ∧ b.1 < a.1 + DEBOUNCE_DELAY) calls) :
    debouncedInvocations DEBOUNCE_DELAY calls =
      [(last.1 + DEBOUNCE_DELAY, last.2)] ∧
    pipelineInputs DEBOUNCE_DELAY calls = [last.2] := by
  match calls with
  | [] => simp at hlast
  | c :: rest =>
    have h := debounceRun_coalesce DEBOUNCE_DELAY rest c last hlast hburst
    refine ⟨h, ?_⟩
    simp [pipelineInputs, debouncedInvocations, h]

/-- Witness for C4: three edits at 0, 100 and 300 ms (gaps 100 and 200, both
below 500) produce a single pipeline invocation at 800 ms with the last
value. -/
theorem c4_debounce_coalesces_witness :
    debouncedInvocations DEBOUNCE_DELAY [(0, "a"), (100, "b"), (300, "c")] =
      [(800, "c")] ∧
    pipelineInputs DEBOUNCE_DELAY [(0, "a"), (100, "b"), (300, "c")] = ["c"] :=
  c4_debounce_coalesces [(0, "a"), (100, "b"), (300, "c")] (300, "c")
    (by decide)
    (by simp [List.chain'_cons, DEBOUNCE_DELAY])

/-- Helper for the error-boundary analysis: producer changes never write the
error state, so any run of them preserves it. -/
theorem boundaryStep_foldl_producerChanges (l : List BoundaryEvent) :
    (∀ e ∈ l, isProducerChange e = true) →
    ∀ s : Option String, l.foldl boundaryStep s = s := by
  induction l with
  | nil =>
    intro _ s
    rfl
  | cons e t ih =>
    intro h s
    have he : isProducerChange e = true := h e (List.mem_cons_self e t)
    have ht : ∀ x ∈ t, isProducerChange x = true :=
      fun x hx => h x (List.mem_cons_of_mem e hx)
    cases e with
    | windowError m => simp [isProducerChange] at he
    | producerChange p =>
      simp only [List.foldl_cons, boundaryStep]
      exact ih ht s

/-- C5: once the page-scoped listener has stored an error message, any
sequence of producer changes — successful renders included — leaves the
stored error in place, and the boundary keeps rendering the error box in
place of all children whatever the current producer; only a freshly captured
error event replaces the stored message. -/
theorem c5_runtime_error_sticky (m : String) (events : List BoundaryEvent)
    (h : ∀ e ∈ events, isProducerChange e = true) :
    events.foldl boundaryStep (some m) = some m ∧
    (∀ p, boundaryRender (events.foldl boundaryStep (some m)) p =
      .runtimeError m) ∧
    (∀ s m2, boundaryStep s (.windowError m2) = some m2) := by
  have hfold := boundaryStep_foldl_producerChanges events h (some m)
  refine ⟨hfold, ?_, fun s m2 => rfl⟩
  intro p
  rw [hfold]
  rfl

/-- Witness for C5: after "boom" is captured, two producer changes (one of
them a successfully rendering constant producer) leave the error stored and
displayed. -/
theorem c5_runtime_error_sticky_witness :
    [BoundaryEvent.producerChange (.closureConst (.element "div" "ok")),
     BoundaryEvent.producerChange .undefined].foldl boundaryStep
        (some "boom") = some "boom" ∧
    boundaryRender
      ([BoundaryEvent.producerChange (.closureConst (.element "div" "ok")),
        BoundaryEvent.producerChange .undefined].foldl boundaryStep
          (some "boom"))
      (.closureConst (.element "div" "ok")) = .runtimeError "boom" :=
  ⟨(c5_runtime_error_sticky "boom"
      [BoundaryEvent.producerChange (.closureConst (.element "div" "ok")),
       BoundaryEvent.producerChange .undefined] (by decide)).1,
   (c5_runtime_error_sticky "boom"
      [BoundaryEvent.producerChange (.closureConst (.element "div" "ok")),
       BoundaryEvent.producerChange .undefined] (by decide)).2.1
     (.closureConst (.element "div" "ok"))⟩

/-- C6: saving with name "Foo" and current buffer X appends exactly the entry
with name "Foo" and code X at the end of the history, leaves all existing
entries and their order unchanged, and leaves the editor buffer equal to X
(the save only additionally clears the name input). -/
theorem c6_save_appends (H : List HistoryEntry) (X : String) (comp : JsValue) :
    handleSave ⟨X, comp, H, "Foo"⟩ = ⟨X, comp, H ++ [⟨"Foo", X⟩], ""⟩ := by
  rfl

/-- C9: a save attempt whose entered name trims to the empty string changes
nothing — no entry is appended, and buffer, history and name input are all as
before; a save appends an entry exactly when the trimmed name is non-empty,
and such a successful save clears the name input while leaving the buffer
untouched. -/
theorem c9_save_validation (st : SandboxState) :
    (jsTrim st.componentName = "" → handleSave st = st) ∧
    (jsTrim st.componentName ≠ "" →
      handleSave st =
        { st with
          history := st.history ++ [⟨st.componentName, st.code⟩],
          componentName := "" }) := by
  constructor
  · intro h
    simp [handleSave, truthy, String.isEmpty_iff, h]
  · intro h
    simp [handleSave, truthy, String.isEmpty_iff, h]

/-- Witness for C9: a whitespace-only name leaves a concrete state unchanged;
a name with surrounding spaces saves the untrimmed name and clears the
input. -/
theorem c9_save_validation_witness :
    handleSave ⟨"X", .undefined, [], "   "⟩ = ⟨"X", .undefined, [], "   "⟩ ∧
    handleSave ⟨"X", .undefined, [], " Foo "⟩ =
      ⟨"X", .undefined, [⟨" Foo ", "X"⟩], ""⟩ :=
  ⟨(c9_save_validation ⟨"X", .undefined, [], "   "⟩).1 (by decide),
   (c9_save_validation ⟨"X", .undefined, [], " Foo "⟩).2 (by decide)⟩

/-- Helper for deletion: once the running counter has passed the target
index, the index-filter keeps every remaining element. -/
theorem deleteAtAux_lt (hist : List HistoryEntry) :
    ∀ counter index : Int, index < counter →
      deleteAtAux index counter hist = hist := by
  induction hist with
  | nil =>
    intro counter index _
    rfl
  | cons e rest ih =>
    intro counter index h
    unfold deleteAtAux
    rw [if_neg (by omega)]
    rw [ih (counter + 1) index (by omega)]

/-- Helper for deletion: when the target index lies at or beyond the end of
the remaining list, the index-filter keeps every element. -/
theorem deleteAtAux_ge (hist : List HistoryEntry) :
    ∀ counter index : Int, counter + hist.length ≤ index →
      deleteAtAux index counter hist = hist := by
  induction hist with
  | nil =>
    intro counter index _
    rfl
  | cons e rest ih =>
    intro counter index h
    simp only [List.length_cons] at h
    push_cast at h
    unfold deleteAtAux
    rw [if_neg (by omega)]
    rw [ih (counter + 1) index (by omega)]

/-- Helper for deletion: with the target index a valid offset `i` from the
running counter, the index-filter removes exactly the element at offset `i`. -/
theorem deleteAtAux_take_drop (hist : List HistoryEntry) :
    ∀ (counter : Int) (i : Nat), i < hist.length →
      deleteAtAux (counter + i) counter hist =
        hist.take i ++ hist.drop (i + 1) := by
  induction hist with
  | nil =>
    intro counter i h
    simp at h
  | cons e rest ih =>
    intro counter i h
    cases i with
    | zero =>
      unfold deleteAtAux
      rw [if_pos (by push_cast; omega)]
      simp only [List.take_zero, List.drop_succ_cons, List.drop_zero,
        List.nil_append]
      exact deleteAtAux_lt rest (counter + 1) (counter + (0 : Nat))
        (by push_cast; omega)
    | succ k =>
      unfold deleteAtAux
      rw [if_neg (by push_cast; omega)]
      have hk : k < rest.length := by
        simp only [List.length_cons] at h
        omega
      have hrec := ih (counter + 1) k hk
      rw [show (counter + ((k : Nat) + 1 : Nat) : Int) = (counter + 1) + k by
        push_cast; ring]
      rw [hrec]
      simp [List.take_succ_cons, List.drop_succ_cons]

/-- Deleting a valid position rewrites to a take/drop decomposition. -/
theorem onDeleteHistory_eq (hist : List HistoryEntry) (i : Nat)
    (h : i < hist.length) :
    onDeleteHistory hist i = hist.take i ++ hist.drop (i + 1) := by
  have := deleteAtAux_take_drop hist 0 i h
  simpa [onDeleteHistory] using this

/-- C7: deleting the entry at a valid position i yields a list one shorter in
which every entry before i is unchanged and every entry formerly at a
position j greater than i now sits at position j minus one. -/
theorem c7_delete_shifts (hist : List HistoryEntry) (i : Nat)
    (h : i < hist.length) :
    (onDeleteHistory hist i).length = hist.length - 1 ∧
    (∀ j, j < i → (onDeleteHistory hist i)[j]? = hist[j]?) ∧
    (∀ j, i < j → j < hist.length →
      (onDeleteHistory hist i)[j - 1]? = hist[j]?) := by
  rw [onDeleteHistory_eq hist i h]
  refine ⟨?_, ?_, ?_⟩
  · simp only [List.length_append, List.length_take, List.length_drop]
    omega
  · intro j hj
    rw [List.getElem?_append, if_pos (by simp [List.length_take]; omega)]
    rw [List.getElem?_take, if_pos (by omega)]
  · intro j hij hjlen
    rw [List.getElem?_append_right (by simp [List.length_take]; omega)]
    rw [List.getElem?_drop]
    congr 1
    simp only [List.length_take]
    omega

/-- Witness for C7: deleting position 1 of a three-entry list keeps entry 0
in place, moves entry 2 to position 1, and shortens the list by one. -/
theorem c7_delete_shifts_witness :
    (onDeleteHistory [⟨"a", "1"⟩, ⟨"b", "2"⟩, ⟨"c", "3"⟩] 1).length = 3 - 1 ∧
    (onDeleteHistory [⟨"a", "1"⟩, ⟨"b", "2"⟩, ⟨"c", "3"⟩] 1)[0]? =
      [(⟨"a", "1"⟩ : HistoryEntry), ⟨"b", "2"⟩, ⟨"c", "3"⟩][0]? ∧
    (onDeleteHistory [⟨"a", "1"⟩, ⟨"b", "2"⟩, ⟨"c", "3"⟩] 1)[2 - 1]? =
      [(⟨"a", "1"⟩ : HistoryEntry), ⟨"b", "2"⟩, ⟨"c", "3"⟩][2]? :=
  ⟨(c7_delete_shifts [⟨"a", "1"⟩, ⟨"b", "2"⟩, ⟨"c", "3"⟩] 1 (by decide)).1,
   (c7_delete_shifts [⟨"a", "1"⟩, ⟨"b", "2"⟩, ⟨"c", "3"⟩] 1 (by decide)).2.1
     0 (by decide),
   (c7_delete_shifts [⟨"a", "1"⟩, ⟨"b", "2"⟩, ⟨"c", "3"⟩] 1 (by decide)).2.2
     2 (by decide) (by decide)⟩

/-- C10: deleting at an index outside the bounds of the history — negative or
at least the length — returns the history unchanged: the operation is total
and an out-of-range deletion is a no-op rather than an error. -/
theorem c10_delete_out_of_range (hist : List HistoryEntry) (index : Int)
    (h : index < 0 ∨ (hist.length : Int) ≤ index) :
    onDeleteHistory hist index = hist := by
  cases h with
  | inl h => exact deleteAtAux_lt hist 0 index h
  | inr h => exact deleteAtAux_ge hist 0 index (by omega)

/-- Witness for C10: on a one-entry history, deleting index 5 and deleting
index minus one both leave the history as it was. -/
theorem c10_delete_out_of_range_witness :
    onDeleteHistory [⟨"a", "1"⟩] 5 = [⟨"a", "1"⟩] ∧
    onDeleteHistory [⟨"a", "1"⟩] (-1) = [⟨"a", "1"⟩] :=
  ⟨c10_delete_out_of_range [⟨"a", "1"⟩] 5 (Or.inr (by decide)),
   c10_delete_out_of_range [⟨"a", "1"⟩] (-1) (Or.inl (by decide))⟩

/-- C8: choosing a catalog preset stores exactly that preset's width/height
and the output area's style takes that fixed width and height; choosing the
Desktop option (whose value is the empty string) stores no size, so the style
falls back to the base sizing with no fixed width; and any stored size
matches at most one catalog preset, so at most one preset is active at any
moment. -/
theorem c8_device_presets :
    (∀ name dims, (name, dims) ∈ MOBILE_SIZES →
      selectMobileSize name = some dims ∧
      outputStyle (selectMobileSize name) = ⟨some dims.1, dims.2⟩) ∧
    selectMobileSize "" = none ∧
    outputStyle (selectMobileSize "") = ⟨none, 400⟩ ∧
    (∀ (m : Option (Nat × Nat)) (e1 e2 : String × Nat × Nat),
      e1 ∈ MOBILE_SIZES → e2 ∈ MOBILE_SIZES →
      some e1.2 = m → some e2.2 = m → e1 = e2) := by
  refine ⟨?_, rfl, rfl, ?_⟩
  · intro name dims hmem
    fin_cases hmem <;> exact ⟨rfl, rfl⟩
  · intro m e1 e2 h1 h2 hm1 hm2
    subst hm2
    fin_cases h1 <;> fin_cases h2 <;> simp_all

/-- Witness for C8: the iPad preset fixes a 768 by 1024 viewport, and the
iPad entry is the only active preset when its size is stored. -/
theorem c8_device_presets_witness :
    selectMobileSize "iPad" = some (768, 1024) ∧
    outputStyle (selectMobileSize "iPad") = ⟨some 768, 1024⟩ ∧
    ("iPhone SE", (375, 667)) = (("iPhone SE", (375, 667)) : String × Nat × Nat) :=
  ⟨(c8_device_presets.1 "iPad" (768, 1024) (by decide)).1,
   (c8_device_presets.1 "iPad" (768, 1024) (by decide)).2,
   c8_device_presets.2.2.2 (some (375, 667)) ("iPhone SE", (375, 667))
     ("iPhone SE", (375, 667)) (by decide) (by decide) rfl rfl⟩
